import Mathlib

/-
Shallow embedding of the dual-view overlap computation of
`src/datasets/voc.py` (class `VOCSegmentation.__getitem__` and
`collate_fn2`), together with proofs of the specified properties.

Conventions of the embedding:
* Python integers are `Int`; image extents `H`, `W` (from `img.size`,
  read at line 154 *before* any transform is applied) are `Int`s that are
  nonnegative in every theorem that needs it.
* The boolean overlap tensor `torch.zeros((H, W), dtype=torch.bool)` with
  the slice assignment of line 180 is modelled as a `BoolGrid`: a pair of
  extents plus a pixel predicate.  Python/PyTorch slice-bound semantics
  (negative bounds wrap by `+ len`, then everything is clamped to
  `[0, len]`) are modelled exactly by `sliceNorm`.
* The crop transform itself lives in `utils/train_ext_transforms`, which
  is not part of this repository snapshot; per the interface description
  it returns a placement tuple `(offset_row, offset_col, crop_h, crop_w,
  pad_row, pad_col)` (so `transforms[0][-2]` is `pad_row` and
  `transforms[0][-1]` is `pad_col`).  The transform's outputs are passed
  to `getitem` as data.
-/

namespace VOC

/-- Placement metadata tuple produced by the crop transform, in the order
`(offset_row, offset_col, crop_h, crop_w, pad_row, pad_col)`.  The code
reads index `0`, index `1`, index `-2` and index `-1` of this tuple. -/
structure Placement where
  offsetRow : Int
  offsetCol : Int
  cropH : Int
  cropW : Int
  padRow : Int
  padCol : Int
  deriving DecidableEq, Repr

/-- Lines 171-176 of `voc.py`, exactly as written:

```
i1, j1, i2, j2 = transforms[0][0], transforms[0][1], transforms[1][0], transforms[1][1]
padding_x, padding_y = transforms[0][-2], transforms[0][-1]
i1 -= padding_x
i2 == padding_x
j1 -= padding_y
j2 -= padding_y
```

Note that `i2 == padding_x` is an equality *comparison* whose result is
discarded (a no-op), so `i2` is left uncorrected, and that both `j`
corrections use `transforms[0]`'s padding, i.e. view B's column offset is
corrected by view A's column padding.  Returns `(i1, j1, i2, j2)`. -/
def correctedOffsets (t0 t1 : Placement) : Int × Int × Int × Int :=
  (t0.offsetRow - t0.padRow, t0.offsetCol - t0.padCol,
   t1.offsetRow, t1.offsetCol - t0.padCol)

/-- The padding correction as the specification states it: each view's own
padding is subtracted from that view's offset, on both axes.  This is the
comparison point for the code's `correctedOffsets`. -/
def specCorrectedOffsets (t0 t1 : Placement) : Int × Int × Int × Int :=
  (t0.offsetRow - t0.padRow, t0.offsetCol - t0.padCol,
   t1.offsetRow - t1.padRow, t1.offsetCol - t1.padCol)

/-- Python slice-bound normalization for a sequence of length `len`
(`len ≥ 0`): a negative bound is shifted by `len`, then the result is
clamped to `[0, len]`.  This is the exact rule used by CPython (and by
PyTorch tensor basic indexing) for slices with step 1. -/
def sliceNorm (v len : Int) : Int :=
  if v < 0 then max (v + len) 0 else min v len

/-- Row start of the shared rectangle, line 180: `max(i1, i2, 0)`. -/
def row_start (i1 i2 : Int) : Int := max (max i1 i2) 0

/-- Row end of the shared rectangle, line 180: `min(i1 + h, i2 + h, H)`
with `h = 513` hard-coded at line 178. -/
def row_end (i1 i2 H : Int) : Int := min (min (i1 + 513) (i2 + 513)) H

/-- Column start of the shared rectangle, line 180: `max(j1, j2, 0)`. -/
def col_start (j1 j2 : Int) : Int := max (max j1 j2) 0

/-- Column end of the shared rectangle, line 180: `min(j1 + w, j2 + w, W)`
with `w = 513` hard-coded at line 178. -/
def col_end (j1 j2 W : Int) : Int := min (min (j1 + 513) (j2 + 513)) W

/-- A boolean `(rows, cols)` tensor, by its extents and pixel values. -/
structure BoolGrid where
  rows : Int
  cols : Int
  pix : Int → Int → Bool

/-- `torch.zeros((H, W), dtype=torch.bool)` (lines 159 and 170). -/
def zerosGrid (H W : Int) : BoolGrid := ⟨H, W, fun _ _ => false⟩

/-- The overlap tensor after line 180's slice assignment
`overlap[max(i1,i2,0):min(i1+h,i2+h,H), max(j1,j2,0):min(j1+w,j2+w,W)] = 1`
on `torch.zeros((H, W))`: pixel `(r, c)` is `True` exactly when both
coordinates land inside the (Python-normalized) slice ranges. -/
def overlapGrid (i1 j1 i2 j2 H W : Int) : BoolGrid :=
  ⟨H, W, fun r c =>
    (decide (sliceNorm (row_start i1 i2) H ≤ r) &&
     decide (r < sliceNorm (row_end i1 i2 H) H)) &&
    (decide (sliceNorm (col_start j1 j2) W ≤ c) &&
     decide (c < sliceNorm (col_end j1 j2 W) W))⟩

/-- Number of `True` pixels of a boolean grid (over its index range). -/
def maskTrueCount (g : BoolGrid) : Nat :=
  (((Finset.Ico 0 g.rows) ×ˢ (Finset.Ico 0 g.cols)).filter
    (fun p => g.pix p.1 p.2 = true)).card

/-- A local overlap rectangle `[row_start, col_start, row_end, col_end]`
(the four-element Python lists `overlap1`/`overlap2` of lines 181-182,
field order matching the list order). -/
structure Region where
  rStart : Int
  cStart : Int
  rEnd : Int
  cEnd : Int
  deriving DecidableEq, Repr

/-- Line 181: `overlap1 = [max(i1,i2,0) - i1, max(j1,j2,0) - j1,
min(i1+h,i2+h,H) - i1, min(j1+w,j2+w,W) - j1]`. -/
def overlapRegion1 (i1 j1 i2 j2 H W : Int) : Region :=
  ⟨row_start i1 i2 - i1, col_start j1 j2 - j1,
   row_end i1 i2 H - i1, col_end j1 j2 W - j1⟩

/-- Line 182: `overlap2`, the same rectangle in view B's local frame. -/
def overlapRegion2 (i1 j1 i2 j2 H W : Int) : Region :=
  ⟨row_start i1 i2 - i2, col_start j1 j2 - j2,
   row_end i1 i2 H - i2, col_end j1 j2 W - j2⟩

/-- Translation of a local rectangle back by a view's offset. -/
def translateRegion (rg : Region) (dr dc : Int) : Region :=
  ⟨rg.rStart + dr, rg.cStart + dc, rg.rEnd + dr, rg.cEnd + dc⟩

/-- Unhandled Python exceptions that `__getitem__` can raise. -/
inductive PyError where
  | notImplementedError
  | unboundLocalError
  deriving DecidableEq, Repr

/-- Result of `__getitem__`: the 1-view branch returns
`(img, target, overlap)` with a boolean mask; the 2-view branch returns
`(imgs, targets, overlaps)` with two-element lists (the overlap *mask* of
line 170/180 is computed but not part of the returned tuple). -/
inductive GetOut (I T : Type) where
  | single (img : I) (target : T) (overlap : BoolGrid)
  | dual (imgs : List I) (targets : List T) (overlaps : List Region)

/-- Lines 146-195 of `voc.py` (`VOCSegmentation.__getitem__`), with the
file I/O abstracted away: `H`, `W` are the source image's extents read at
line 154 before transforming, `s` is the `(img, target)` pair the 1-view
branch unpacks from `self.transform(img, target)`, and `d` gives the two
`(img, target, placement)` triples unpacked by the two iterations of the
2-view branch's loop.  When `self.transform` is `None`, control reaches
line 195's `return img, target, overlap` with the local `overlap` never
assigned, an unhandled `UnboundLocalError`. -/
def getitem {I T : Type} (hasTransform : Bool) (numCopy : Int) (H W : Int)
    (s : I × T) (d : Fin 2 → I × T × Placement) :
    Except PyError (GetOut I T) :=
  if hasTransform then
    if numCopy = 1 then
      .ok (.single s.1 s.2 (zerosGrid H W))
    else if numCopy = 2 then
      let p0 := (d 0).2.2
      let p1 := (d 1).2.2
      let o := correctedOffsets p0 p1
      .ok (.dual [(d 0).1, (d 1).1] [(d 0).2.1, (d 1).2.1]
        [overlapRegion1 o.1 o.2.1 o.2.2.1 o.2.2.2 H W,
         overlapRegion2 o.1 o.2.1 o.2.2.1 o.2.2.2 H W])
    else .error .notImplementedError
  else .error .unboundLocalError

/-- One element of the batch list handed to `collate_fn2`, as the loop
sees it after `imgs, targets, overlaps = batch`.  A 2-view sample carries
two images, two targets and two overlap records.  A 1-view sample's
`imgs` is a single `(3, h, w)` image tensor (line 153 converts to RGB, so
three channels): `len(imgs)` is `3` and `imgs[i]` is a channel slice; its
`targets` is a 2-D mask tensor iterated by rows, and its `overlaps` is
the `(H, W)` boolean mask iterated by rows. -/
inductive CollSample (I T O : Type) where
  | single (c0 c1 c2 : I) (targetRows : List T) (maskRows : List O)
  | dual (i0 i1 : I) (t0 t1 : T) (r0 r1 : O)

/-- What iterating/indexing the first component of a batch element yields. -/
def CollSample.imgsSeq {I T O : Type} : CollSample I T O → List I
  | .single c0 c1 c2 _ _ => [c0, c1, c2]
  | .dual i0 i1 _ _ _ _ => [i0, i1]

/-- What indexing the second component of a batch element yields. -/
def CollSample.targetsSeq {I T O : Type} : CollSample I T O → List T
  | .single _ _ _ tr _ => tr
  | .dual _ _ t0 t1 _ _ => [t0, t1]

/-- What indexing the third component of a batch element yields. -/
def CollSample.overlapsSeq {I T O : Type} : CollSample I T O → List O
  | .single _ _ _ _ mr => mr
  | .dual _ _ _ _ r0 r1 => [r0, r1]

/-- Discriminator for 1-view batch elements. -/
def CollSample.isSingle {I T O : Type} : CollSample I T O → Bool
  | .single _ _ _ _ _ => true
  | .dual _ _ _ _ _ _ => false

/-- Python exceptions `collate_fn2` can raise: `IndexError` from
`targets[i]`, `overlaps[i]` or `_overlaps[i]`, and the `RuntimeError`
`torch.cat` raises on an empty tensor list. -/
inductive CollErr where
  | indexError
  | runtimeError
  deriving DecidableEq, Repr

/-- Accumulator state of `collate_fn2`: the Python lists `_imgs`,
`_targets`, `_overlaps[0]`, `_overlaps[1]`. -/
structure CollAcc (I T O : Type) where
  imgs : List I
  targets : List T
  ovs0 : List O
  ovs1 : List O
  deriving DecidableEq, Repr

/-- One iteration of the inner loop of `collate_fn2` (lines 218-221) at
loop index `i`:

```
_imgs.append(torch.unsqueeze(imgs[i], 0))
_targets.append(torch.unsqueeze(targets[i], 0))
_overlaps[i].append(overlaps[i])
```

`targets[i]` and `overlaps[i]` raise `IndexError` past the end, and
`_overlaps[i]` raises `IndexError` whenever `i ≥ 2` since `_overlaps`
has exactly two slots. -/
def collStep {I T O : Type} (imgsL : List I) (targetsL : List T)
    (ovsL : List O) (acc : CollAcc I T O) (i : Nat) :
    Except CollErr (CollAcc I T O) :=
  match imgsL.get? i, targetsL.get? i with
  | some img, some t =>
    if i = 0 then
      match ovsL.get? i with
      | some ov =>
        .ok ⟨acc.imgs ++ [img], acc.targets ++ [t], acc.ovs0 ++ [ov], acc.ovs1⟩
      | none => .error .indexError
    else if i = 1 then
      match ovsL.get? i with
      | some ov =>
        .ok ⟨acc.imgs ++ [img], acc.targets ++ [t], acc.ovs0, acc.ovs1 ++ [ov]⟩
      | none => .error .indexError
    else .error .indexError
  | _, _ => .error .indexError

/-- The inner loop `for i in range(len(imgs))` for one batch element. -/
def collOne {I T O : Type} (s : CollSample I T O) (acc : CollAcc I T O) :
    Except CollErr (CollAcc I T O) :=
  (List.range s.imgsSeq.length).foldlM
    (collStep s.imgsSeq s.targetsSeq s.overlapsSeq) acc

/-- Lines 212-222 of `voc.py` (`collate_fn2`): loop over the batch, then
`return torch.cat(_imgs, dim=0), torch.cat(_targets, dim=0), _overlaps`.
`torch.cat` on an empty list raises a `RuntimeError`; otherwise the
concatenated tensor's leading dimension is the length of the list, which
the embedding keeps as the list itself. -/
def collate_fn2 {I T O : Type} (batchs : List (CollSample I T O)) :
    Except CollErr (List I × List T × (List O × List O)) := do
  let acc ← batchs.foldlM (fun a s => collOne s a) ⟨[], [], [], []⟩
  if acc.imgs.isEmpty then .error .runtimeError
  else .ok (acc.imgs, acc.targets, (acc.ovs0, acc.ovs1))

/-- Decidable test that an `Except` computation failed. -/
def isErr {ε α : Type} : Except ε α → Bool
  | .error _ => true
  | .ok _ => false

/-- A 2-view sample's payload, for stating batch-level properties. -/
structure DualSample (I T O : Type) where
  img0 : I
  img1 : I
  t0 : T
  t1 : T
  r0 : O
  r1 : O

/-- View a 2-view sample as a batch element of `collate_fn2`. -/
def DualSample.toColl {I T O : Type} (d : DualSample I T O) :
    CollSample I T O :=
  .dual d.img0 d.img1 d.t0 d.t1 d.r0 d.r1

/-- Containment of a local overlap rectangle in `[0, h] × [0, w]`, as the
specification phrases the invariant for a view's own crop frame. -/
def regionWithin (rg : Region) (h w : Int) : Prop :=
  0 ≤ rg.rStart ∧ rg.rStart ≤ rg.rEnd ∧ rg.rEnd ≤ h ∧
  0 ≤ rg.cStart ∧ rg.cStart ≤ rg.cEnd ∧ rg.cEnd ≤ w

instance (rg : Region) (h w : Int) : Decidable (regionWithin rg h w) := by
  unfold regionWithin
  infer_instance

theorem sliceNorm_of_nonneg (v len : Int) (h : 0 ≤ v) :
    sliceNorm v len = min v len := by
  unfold sliceNorm
  rw [if_neg (by omega)]

theorem sliceNorm_nonneg (v len : Int) (hlen : 0 ≤ len) :
    0 ≤ sliceNorm v len := by
  unfold sliceNorm
  split <;> omega

theorem sliceNorm_le_len (v len : Int) (hlen : 0 ≤ len) :
    sliceNorm v len ≤ len := by
  unfold sliceNorm
  split <;> omega

theorem row_start_nonneg (i1 i2 : Int) : 0 ≤ row_start i1 i2 := by
  unfold row_start
  omega

theorem col_start_nonneg (j1 j2 : Int) : 0 ≤ col_start j1 j2 := by
  unfold col_start
  omega

theorem row_end_le (i1 i2 H : Int) : row_end i1 i2 H ≤ H :=
  min_le_right _ _

theorem col_end_le (j1 j2 W : Int) : col_end j1 j2 W ≤ W :=
  min_le_right _ _

theorem toNat_mul_of_nonneg (a b : Int) (ha : 0 ≤ a) (hb : 0 ≤ b) :
    a.toNat * b.toNat = (a * b).toNat := by
  obtain ⟨m, hm⟩ : ∃ m : ℕ, a = (m : Int) := ⟨a.toNat, by omega⟩
  obtain ⟨n, hn⟩ : ∃ n : ℕ, b = (n : Int) := ⟨b.toNat, by omega⟩
  subst hm
  subst hn
  rw [← Nat.cast_mul, Int.toNat_natCast, Int.toNat_natCast, Int.toNat_natCast]

/-- The pixels set by line 180's slice assignment form the rectangle of
the normalized slice bounds, so the true-pixel count is the product of
the two normalized slice lengths. -/
theorem maskTrueCount_overlapGrid (i1 j1 i2 j2 H W : Int)
    (hH : 0 ≤ H) (hW : 0 ≤ W) :
    maskTrueCount (overlapGrid i1 j1 i2 j2 H W) =
      (sliceNorm (row_end i1 i2 H) H - sliceNorm (row_start i1 i2) H).toNat *
      (sliceNorm (col_end j1 j2 W) W - sliceNorm (col_start j1 j2) W).toNat := by
  have ha := sliceNorm_nonneg (row_start i1 i2) H hH
  have hb := sliceNorm_le_len (row_end i1 i2 H) H hH
  have hc := sliceNorm_nonneg (col_start j1 j2) W hW
  have hd := sliceNorm_le_len (col_end j1 j2 W) W hW
  have key : (((Finset.Ico (0:Int) H) ×ˢ (Finset.Ico (0:Int) W)).filter
      (fun p => (overlapGrid i1 j1 i2 j2 H W).pix p.1 p.2 = true)) =
      (Finset.Ico (sliceNorm (row_start i1 i2) H)
        (sliceNorm (row_end i1 i2 H) H)) ×ˢ
      (Finset.Ico (sliceNorm (col_start j1 j2) W)
        (sliceNorm (col_end j1 j2 W) W)) := by
    ext p
    simp only [Finset.mem_filter, Finset.mem_product, Finset.mem_Ico,
      overlapGrid, Bool.and_eq_true, decide_eq_true_eq]
    omega
  unfold maskTrueCount
  show (((Finset.Ico (0:Int) H) ×ˢ (Finset.Ico (0:Int) W)).filter
      (fun p => (overlapGrid i1 j1 i2 j2 H W).pix p.1 p.2 = true)).card = _
  rw [key, Finset.card_product, Int.card_Ico, Int.card_Ico]

/-- C1: the claim states that each view's true top-left offset is obtained
by subtracting that view's own padding from its offset on both axes,
identically for both views.  The code (lines 173-176) instead leaves view
B's row offset uncorrected (`i2 == padding_x` compares instead of
assigning) and subtracts view A's column padding from view B's column
offset.  Evaluating both at placements A = (offsets (10,20), pads (3,4))
and B = (offsets (30,40), pads (5,6)) exhibits the divergence: the code
yields (7, 16, 30, 36) where the claim requires (7, 16, 25, 34). -/
theorem C1_padding_correction_divergence :
    correctedOffsets ⟨10, 20, 513, 513, 3, 4⟩ ⟨30, 40, 513, 513, 5, 6⟩ =
      (7, 16, 30, 36) ∧
    specCorrectedOffsets ⟨10, 20, 513, 513, 3, 4⟩ ⟨30, 40, 513, 513, 5, 6⟩ =
      (7, 16, 25, 34) ∧
    correctedOffsets ⟨10, 20, 513, 513, 3, 4⟩ ⟨30, 40, 513, 513, 5, 6⟩ ≠
    specCorrectedOffsets ⟨10, 20, 513, 513, 3, 4⟩ ⟨30, 40, 513, 513, 5, 6⟩ :=
  ⟨rfl, rfl, by decide⟩

/-- C3: translating view A's local overlap rectangle by view A's offset
and view B's local rectangle by view B's offset yields the identical
absolute rectangle in the original image frame, for all offsets and
extents. -/
theorem C3_translated_regions_agree (i1 j1 i2 j2 H W : Int) :
    translateRegion (overlapRegion1 i1 j1 i2 j2 H W) i1 j1 =
    translateRegion (overlapRegion2 i1 j1 i2 j2 H W) i2 j2 := by
  simp only [translateRegion, overlapRegion1, overlapRegion2, Region.mk.injEq]
  refine ⟨by omega, by omega, by omega, by omega⟩

/-- C6: with a transform configured and `num_copy = 1`, `__getitem__`
applies the augmentation once and returns the augmented pair together
with an all-`False` boolean grid whose extents are the source image's
pre-crop `(H, W)` (read at line 154 before the transform runs). -/
theorem C6_single_view_all_false {I T : Type} (H W : Int) (s : I × T)
    (d : Fin 2 → I × T × Placement) :
    getitem true 1 H W s d = .ok (.single s.1 s.2 (zerosGrid H W)) ∧
    (zerosGrid H W).rows = H ∧ (zerosGrid H W).cols = W ∧
    ∀ r c : Int, (zerosGrid H W).pix r c = false :=
  ⟨rfl, rfl, rfl, fun _ _ => rfl⟩

/-- C7: with a transform configured and `num_copy` outside `{1, 2}`,
`__getitem__` raises `NotImplementedError` (the spec's
`UnsupportedViewCount`) and never returns a sample. -/
theorem C7_unsupported_view_count {I T : Type} (numCopy H W : Int)
    (s : I × T) (d : Fin 2 → I × T × Placement)
    (h1 : numCopy ≠ 1) (h2 : numCopy ≠ 2) :
    getitem true numCopy H W s d = .error .notImplementedError := by
  unfold getitem
  rw [if_pos rfl, if_neg h1, if_neg h2]

/-- Witness for C7 at the concrete view count 3. -/
theorem C7_unsupported_view_count_witness :
    (3 : Int) ≠ 1 ∧ (3 : Int) ≠ 2 ∧
    getitem true 3 600 800 (((), ()) : Unit × Unit)
      (fun _ => ((), (), ⟨0, 0, 513, 513, 0, 0⟩)) =
      .error .notImplementedError :=
  ⟨by decide, by decide,
   C7_unsupported_view_count 3 600 800 ((), ())
     (fun _ => ((), (), ⟨0, 0, 513, 513, 0, 0⟩)) (by decide) (by decide)⟩

/-- C2: provided neither clamped end coordinate is negative (always the
case for placements the padding crop transform can produce, whose
corrected offsets satisfy `offset ≥ -513`), the number of `True` pixels
in the computed overlap mask equals the product of the two per-axis
clamped-interval lengths, or zero if either length is `≤ 0`. -/
theorem C2_mask_true_count (i1 j1 i2 j2 H W : Int) (hH : 0 ≤ H)
    (hW : 0 ≤ W) (hre : 0 ≤ row_end i1 i2 H) (hce : 0 ≤ col_end j1 j2 W) :
    maskTrueCount (overlapGrid i1 j1 i2 j2 H W) =
      if row_end i1 i2 H - row_start i1 i2 ≤ 0 ∨
          col_end j1 j2 W - col_start j1 j2 ≤ 0 then 0
      else ((row_end i1 i2 H - row_start i1 i2) *
        (col_end j1 j2 W - col_start j1 j2)).toNat := by
  rw [maskTrueCount_overlapGrid i1 j1 i2 j2 H W hH hW,
      sliceNorm_of_nonneg _ _ hre, sliceNorm_of_nonneg _ _ hce,
      sliceNorm_of_nonneg _ _ (row_start_nonneg i1 i2),
      sliceNorm_of_nonneg _ _ (col_start_nonneg j1 j2)]
  have h1 : row_end i1 i2 H ≤ H := row_end_le i1 i2 H
  have h2 : col_end j1 j2 W ≤ W := col_end_le j1 j2 W
  rw [min_eq_left h1, min_eq_left h2]
  split_ifs with h
  · rcases h with h | h
    · exact Nat.mul_eq_zero.mpr (Or.inl (by omega))
    · exact Nat.mul_eq_zero.mpr (Or.inr (by omega))
  · push_neg at h
    rw [min_eq_left (show row_start i1 i2 ≤ H by omega),
        min_eq_left (show col_start j1 j2 ≤ W by omega)]
    exact toNat_mul_of_nonneg _ _ (by omega) (by omega)

/-- Witness for C2 at the specification's concrete scenario: offsets
(50, 50) and (100, 100) on a 600 × 800 image. -/
theorem C2_mask_true_count_witness :
    0 ≤ (600 : Int) ∧ 0 ≤ (800 : Int) ∧
    0 ≤ row_end 50 100 600 ∧ 0 ≤ col_end 50 100 800 ∧
    maskTrueCount (overlapGrid 50 50 100 100 600 800) =
      (if row_end 50 100 600 - row_start 50 100 ≤ 0 ∨
          col_end 50 100 800 - col_start 50 100 ≤ 0 then 0
       else ((row_end 50 100 600 - row_start 50 100) *
         (col_end 50 100 800 - col_start 50 100)).toNat) :=
  ⟨by decide, by decide, by decide, by decide,
   C2_mask_true_count 50 50 100 100 600 800
     (by decide) (by decide) (by decide) (by decide)⟩

/-- Counterexample to C2 as stated for all placements: with both views
placed at corrected offset (-1000, 0) on a 600 × 600 image (padding 1000
with offset 0), the clamped row length is `-487 ≤ 0`, so the claim
requires zero true pixels, but the slice assignment's negative stop index
wraps around in Python and sets 113 × 513 = 57969 pixels. -/
theorem C2_mask_true_count_cex :
    row_end (-1000) (-1000) 600 - row_start (-1000) (-1000) ≤ 0 ∧
    maskTrueCount (overlapGrid (-1000) 0 (-1000) 0 600 600) = 57969 ∧
    maskTrueCount (overlapGrid (-1000) 0 (-1000) 0 600 600) ≠ 0 := by
  refine ⟨by decide, ?_, ?_⟩
  · rw [maskTrueCount_overlapGrid (-1000) 0 (-1000) 0 600 600
      (by decide) (by decide)]
    decide
  · rw [maskTrueCount_overlapGrid (-1000) 0 (-1000) 0 600 600
      (by decide) (by decide)]
    decide

/-- C4: for placements with no spatial intersection (and clamped end
coordinates that are nonnegative, as for every placement the padding
crop transform can produce), the computation is total (no exception), the
overlap mask is all-`False`, and both local rectangles are degenerate. -/
theorem C4_disjoint_all_false (i1 j1 i2 j2 H W : Int)
    (hre : 0 ≤ row_end i1 i2 H) (hce : 0 ≤ col_end j1 j2 W)
    (hdisj : row_end i1 i2 H ≤ row_start i1 i2 ∨
      col_end j1 j2 W ≤ col_start j1 j2) :
    (∀ r c : Int, (overlapGrid i1 j1 i2 j2 H W).pix r c = false) ∧
    ((overlapRegion1 i1 j1 i2 j2 H W).rEnd ≤
        (overlapRegion1 i1 j1 i2 j2 H W).rStart ∨
      (overlapRegion1 i1 j1 i2 j2 H W).cEnd ≤
        (overlapRegion1 i1 j1 i2 j2 H W).cStart) ∧
    ((overlapRegion2 i1 j1 i2 j2 H W).rEnd ≤
        (overlapRegion2 i1 j1 i2 j2 H W).rStart ∨
      (overlapRegion2 i1 j1 i2 j2 H W).cEnd ≤
        (overlapRegion2 i1 j1 i2 j2 H W).cStart) := by
  have e1 := sliceNorm_of_nonneg _ H (row_start_nonneg i1 i2)
  have e2 := sliceNorm_of_nonneg _ H hre
  have e3 := sliceNorm_of_nonneg _ W (col_start_nonneg j1 j2)
  have e4 := sliceNorm_of_nonneg _ W hce
  refine ⟨?_, ?_, ?_⟩
  · intro r c
    rw [← Bool.not_eq_true]
    simp only [overlapGrid, Bool.and_eq_true, decide_eq_true_eq, e1, e2,
      e3, e4]
    rcases hdisj with hd | hd
    · intro hx
      exact absurd hx (by omega)
    · intro hx
      exact absurd hx (by omega)
  · simp only [overlapRegion1]
    omega
  · simp only [overlapRegion2]
    omega

/-- Witness for C4 at the specification's disjoint scenario: offsets
(0, 0) and (600, 600) on a 600 × 600 image. -/
theorem C4_disjoint_all_false_witness :
    0 ≤ row_end 0 600 600 ∧ 0 ≤ col_end 0 600 600 ∧
    (row_end 0 600 600 ≤ row_start 0 600 ∨
      col_end 0 600 600 ≤ col_start 0 600) ∧
    ((∀ r c : Int, (overlapGrid 0 0 600 600 600 600).pix r c = false) ∧
     ((overlapRegion1 0 0 600 600 600 600).rEnd ≤
         (overlapRegion1 0 0 600 600 600 600).rStart ∨
       (overlapRegion1 0 0 600 600 600 600).cEnd ≤
         (overlapRegion1 0 0 600 600 600 600).cStart) ∧
     ((overlapRegion2 0 0 600 600 600 600).rEnd ≤
         (overlapRegion2 0 0 600 600 600 600).rStart ∨
       (overlapRegion2 0 0 600 600 600 600).cEnd ≤
         (overlapRegion2 0 0 600 600 600 600).cStart)) :=
  ⟨by decide, by decide, by decide,
   C4_disjoint_all_false 0 0 600 600 600 600 (by decide) (by decide)
     (by decide)⟩

/-- Counterexample to C4 as stated for all placements: with corrected
offsets (-1000, 0) and (-600, 0) on a 600 × 600 image the clamped row
interval is empty (`row_end = -487 ≤ row_start = 0`, no spatial
intersection), yet the negative stop index wraps around in Python and
pixel (0, 0) of the computed mask is `True`. -/
theorem C4_disjoint_mask_cex :
    row_end (-1000) (-600) 600 ≤ row_start (-1000) (-600) ∧
    (overlapGrid (-1000) 0 (-600) 0 600 600).pix 0 0 = true := by
  exact ⟨by decide, by decide⟩

/-- C5: whenever the clamped shared rectangle is nonempty, each view's
local overlap rectangle lies within `[0, 513] × [0, 513]`, the view's own
crop frame. -/
theorem C5_regions_within_crop (i1 j1 i2 j2 H W : Int)
    (hr : row_start i1 i2 ≤ row_end i1 i2 H)
    (hc : col_start j1 j2 ≤ col_end j1 j2 W) :
    regionWithin (overlapRegion1 i1 j1 i2 j2 H W) 513 513 ∧
    regionWithin (overlapRegion2 i1 j1 i2 j2 H W) 513 513 := by
  unfold regionWithin overlapRegion1 overlapRegion2 at *
  unfold row_start row_end col_start col_end at *
  constructor <;> simp only <;> omega

/-- Witness for C5 at the specification's concrete scenario: offsets
(50, 50) and (100, 100) on a 600 × 800 image, where the local rectangles
are (50, 50, 513, 513) and (0, 0, 463, 463). -/
theorem C5_regions_within_crop_witness :
    row_start 50 100 ≤ row_end 50 100 600 ∧
    col_start 50 100 ≤ col_end 50 100 800 ∧
    (regionWithin (overlapRegion1 50 50 100 100 600 800) 513 513 ∧
     regionWithin (overlapRegion2 50 50 100 100 600 800) 513 513) :=
  ⟨by decide, by decide,
   C5_regions_within_crop 50 50 100 100 600 800 (by decide) (by decide)⟩

/-- Counterexample to C5 as stated for all placements: with disjoint
offsets (0, 0) and (1000, 0) on a 2000 × 2000 image, view A's local
rectangle is (1000, 0, 513, 513), whose row start 1000 lies outside
`[0, 513]`. -/
theorem C5_region_outside_crop_cex :
    (overlapRegion1 0 0 1000 0 2000 2000).rStart = 1000 ∧
    ¬ regionWithin (overlapRegion1 0 0 1000 0 2000 2000) 513 513 := by
  exact ⟨by decide, by decide⟩

/-- C10: with `transform = None`, `__getitem__` always reaches line 195's
`return img, target, overlap` with the local `overlap` unassigned, an
unhandled `UnboundLocalError`; it never returns the untransformed pair. -/
theorem C10_no_transform_unbound_local {I T : Type} (numCopy H W : Int)
    (s : I × T) (d : Fin 2 → I × T × Placement) :
    getitem false numCopy H W s d = .error .unboundLocalError := rfl

theorem except_bind_ok {ε α β : Type} (a : α) (f : α → Except ε β) :
    (Except.ok a >>= f) = f a := rfl

theorem except_bind_error {ε α β : Type} (e : ε) (f : α → Except ε β) :
    ((Except.error e : Except ε α) >>= f) = .error e := rfl

theorem length_flatMap_pair {α β : Type} (l : List α) (f g : α → β) :
    (l.flatMap (fun x => [f x, g x])).length = 2 * l.length := by
  induction l with
  | nil => rfl
  | cons x l ih =>
    simp only [List.flatMap_cons, List.length_append, List.length_cons,
      List.length_nil, ih]
    omega

/-- Processing one 2-view batch element appends its two views to the
image and target accumulators and one record to each overlap slot. -/
theorem collOne_dual {I T O : Type} (i0 i1 : I) (t0 t1 : T) (r0 r1 : O)
    (acc : CollAcc I T O) :
    collOne (.dual i0 i1 t0 t1 r0 r1) acc =
      .ok ⟨acc.imgs ++ [i0, i1], acc.targets ++ [t0, t1],
           acc.ovs0 ++ [r0], acc.ovs1 ++ [r1]⟩ := by
  have h : collOne (.dual i0 i1 t0 t1 r0 r1) acc =
      .ok ⟨(acc.imgs ++ [i0]) ++ [i1], (acc.targets ++ [t0]) ++ [t1],
           acc.ovs0 ++ [r0], acc.ovs1 ++ [r1]⟩ := rfl
  rw [h]
  simp [List.append_assoc]

/-- The batch loop over a list of 2-view samples succeeds and appends all
views in sample-major, view-index-minor order. -/
theorem collFold_dual {I T O : Type} (ds : List (DualSample I T O))
    (acc : CollAcc I T O) :
    (ds.map DualSample.toColl).foldlM (fun a s => collOne s a) acc =
      .ok ⟨acc.imgs ++ ds.flatMap (fun d => [d.img0, d.img1]),
           acc.targets ++ ds.flatMap (fun d => [d.t0, d.t1]),
           acc.ovs0 ++ ds.map (fun d => d.r0),
           acc.ovs1 ++ ds.map (fun d => d.r1)⟩ := by
  induction ds generalizing acc with
  | nil =>
    simp
    rfl
  | cons d ds ih =>
    rw [List.map_cons, List.foldlM_cons]
    simp only [DualSample.toColl]
    rw [collOne_dual, except_bind_ok, ih]
    simp [List.flatMap_cons, List.append_assoc]

/-- Processing a 1-view batch element always raises: its image tensor has
three channels, so the inner loop reaches `i = 2` (unless an earlier
`IndexError` fires) and `_overlaps[2]` is out of range. -/
theorem collOne_single_isErr {I T O : Type} (c0 c1 c2 : I) (tr : List T)
    (mr : List O) (acc : CollAcc I T O) :
    isErr (collOne (.single c0 c1 c2 tr mr) acc) = true := by
  cases tr with
  | nil => rfl
  | cons t0 tr' =>
    cases mr with
    | nil => rfl
    | cons m0 mr' =>
      cases tr' with
      | nil => rfl
      | cons t1 tr'' =>
        cases mr' with
        | nil => rfl
        | cons m1 mr'' =>
          cases tr'' with
          | nil => rfl
          | cons t2 tr3 => rfl

/-- The whole batch fold fails as soon as the batch contains a 1-view
element, wherever it sits. -/
theorem collFold_single_isErr {I T O : Type}
    (pre post : List (CollSample I T O)) (c0 c1 c2 : I) (tr : List T)
    (mr : List O) (acc : CollAcc I T O) :
    isErr ((pre ++ .single c0 c1 c2 tr mr :: post).foldlM
      (fun a s => collOne s a) acc) = true := by
  induction pre generalizing acc with
  | nil =>
    rw [List.nil_append, List.foldlM_cons]
    have h := collOne_single_isErr c0 c1 c2 tr mr acc
    cases hc : collOne (.single c0 c1 c2 tr mr) acc with
    | ok b =>
      rw [hc] at h
      simp [isErr] at h
    | error e => rfl
  | cons s pre ih =>
    rw [List.cons_append, List.foldlM_cons]
    cases hc : collOne s acc with
    | ok b => exact ih b
    | error e => rfl

/-- C8: on a nonempty batch of 2-view samples, `collate_fn2` succeeds;
the stacked image and target lists are all views flattened sample-major
then view-index-minor, with leading dimension `2N`, and the two overlap
slots each collect one record per sample, in sample order, length `N`. -/
theorem C8_collate_dual_batch {I T O : Type} (ds : List (DualSample I T O))
    (hne : ds ≠ []) :
    collate_fn2 (ds.map DualSample.toColl) =
      .ok (ds.flatMap (fun d => [d.img0, d.img1]),
           ds.flatMap (fun d => [d.t0, d.t1]),
           (ds.map (fun d => d.r0), ds.map (fun d => d.r1))) ∧
    (ds.flatMap (fun d => [d.img0, d.img1])).length = 2 * ds.length ∧
    (ds.flatMap (fun d => [d.t0, d.t1])).length = 2 * ds.length ∧
    (ds.map (fun d => d.r0)).length = ds.length ∧
    (ds.map (fun d => d.r1)).length = ds.length := by
  refine ⟨?_, length_flatMap_pair ds _ _, length_flatMap_pair ds _ _,
    List.length_map _ _, List.length_map _ _⟩
  unfold collate_fn2
  rw [collFold_dual, except_bind_ok]
  simp only [List.nil_append]
  have hA : (ds.flatMap (fun d => [d.img0, d.img1])).isEmpty = false := by
    cases ds with
    | nil => exact absurd rfl hne
    | cons d ds => rfl
  rw [hA]
  rfl

/-- Witness for C8 on a concrete one-sample batch. -/
theorem C8_collate_dual_batch_witness :
    ([⟨(), (), (), (), (), ()⟩] : List (DualSample Unit Unit Unit)) ≠ [] ∧
    (collate_fn2 (([⟨(), (), (), (), (), ()⟩] :
          List (DualSample Unit Unit Unit)).map DualSample.toColl) =
        .ok (([⟨(), (), (), (), (), ()⟩] :
            List (DualSample Unit Unit Unit)).flatMap
            (fun d => [d.img0, d.img1]),
          ([⟨(), (), (), (), (), ()⟩] :
            List (DualSample Unit Unit Unit)).flatMap
            (fun d => [d.t0, d.t1]),
          (([⟨(), (), (), (), (), ()⟩] :
              List (DualSample Unit Unit Unit)).map (fun d => d.r0),
           ([⟨(), (), (), (), (), ()⟩] :
              List (DualSample Unit Unit Unit)).map (fun d => d.r1))) ∧
      (([⟨(), (), (), (), (), ()⟩] :
          List (DualSample Unit Unit Unit)).flatMap
          (fun d => [d.img0, d.img1])).length =
        2 * ([⟨(), (), (), (), (), ()⟩] :
          List (DualSample Unit Unit Unit)).length ∧
      (([⟨(), (), (), (), (), ()⟩] :
          List (DualSample Unit Unit Unit)).flatMap
          (fun d => [d.t0, d.t1])).length =
        2 * ([⟨(), (), (), (), (), ()⟩] :
          List (DualSample Unit Unit Unit)).length ∧
      (([⟨(), (), (), (), (), ()⟩] :
          List (DualSample Unit Unit Unit)).map (fun d => d.r0)).length =
        ([⟨(), (), (), (), (), ()⟩] :
          List (DualSample Unit Unit Unit)).length ∧
      (([⟨(), (), (), (), (), ()⟩] :
          List (DualSample Unit Unit Unit)).map (fun d => d.r1)).length =
        ([⟨(), (), (), (), (), ()⟩] :
          List (DualSample Unit Unit Unit)).length) :=
  ⟨List.cons_ne_nil _ _,
   C8_collate_dual_batch [⟨(), (), (), (), (), ()⟩] (List.cons_ne_nil _ _)⟩

/-- Counterexample to C8 as stated for every batch size: on the empty
batch (`N = 0`) the code does not produce empty stacked tensors —
`torch.cat` of an empty tensor list raises a `RuntimeError`. -/
theorem C8_empty_batch_cex :
    collate_fn2 ([] : List (CollSample Unit Unit Unit)) =
      .error .runtimeError := rfl

/-- C9: every batch that does not consist solely of 2-view samples (it
contains a 1-view element somewhere) makes `collate_fn2` raise (the
spec's `BatchShapeMismatch`; concretely an `IndexError` at
`_overlaps[i]`) instead of returning a batch. -/
theorem C9_mixed_batch_fails {I T O : Type}
    (batch : List (CollSample I T O))
    (h : ∃ s ∈ batch, s.isSingle = true) :
    isErr (collate_fn2 batch) = true := by
  obtain ⟨s, hs, hsing⟩ := h
  obtain ⟨pre, post, rfl⟩ := List.append_of_mem hs
  cases s with
  | dual i0 i1 t0 t1 r0 r1 => simp [CollSample.isSingle] at hsing
  | single c0 c1 c2 tr mr =>
    have hfold := collFold_single_isErr pre post c0 c1 c2 tr mr
      (⟨[], [], [], []⟩ : CollAcc I T O)
    unfold collate_fn2
    cases hf : (pre ++ .single c0 c1 c2 tr mr :: post).foldlM
        (fun a s => collOne s a) (⟨[], [], [], []⟩ : CollAcc I T O) with
    | ok acc =>
      rw [hf] at hfold
      simp [isErr] at hfold
    | error e => rfl

/-- Witness for C9 on a concrete batch holding one 1-view sample. -/
theorem C9_mixed_batch_fails_witness :
    (∃ s ∈ [CollSample.single () () () ([] : List Unit) ([] : List Unit)],
      s.isSingle = true) ∧
    isErr (collate_fn2
      [CollSample.single () () () ([] : List Unit) ([] : List Unit)]) =
      true :=
  ⟨⟨CollSample.single () () () [] [], List.mem_singleton.mpr rfl, rfl⟩,
   C9_mixed_batch_fails _
     ⟨CollSample.single () () () [] [], List.mem_singleton.mpr rfl, rfl⟩⟩

end VOC
